import Mathlib

/-!
# Verification of the audio-analysis ML backend (enhanced variant)

Shallow embedding of `src/enhanced_api.py`: the Model Client retry loop
(`analyze_audio_with_gemini`), its fixed fallback payloads, the Result
Formatter (`format_enhanced_predictions`), the Audio Source Resolver
(`download_audio`), the Segment Extractor (`extract_audio_segment`), and the
cleanup logic of the `predict` and `transcribe-segment` endpoints.

Modelling conventions:
* Python dict/JSON optional fields become `Option` fields; `d.get(k)` is the
  `Option` value, `d.get(k, v)` is `Option.getD v`, and Python truthiness of a
  string (`if d.get(k):`) is "present and non-empty".
* Times and scores are exact rationals (`Rat`); every literal appearing in the
  code (0.0, 1, 10.0, 0.95, 30, 60) is exactly representable, so no
  floating-point rounding is involved in any claim checked here.
* External nondeterminism (the generative model, the filesystem, globbing,
  HTTP, the subprocess runner, `tempfile`) is an explicit environment/oracle
  argument; effectful functions additionally return the list of external
  effects they performed, in order.
* Python exception control flow becomes explicit result constructors.
-/

/-! ## Data model: the JSON analysis payload consumed by the formatter -/

/-- One element of the `"speakers"` array of the model JSON (schema fixed by
the prompt; the code itself only ever produces `[]` for it in fallbacks). -/
structure SpeakerJson where
  id : Option String := none
  total_speaking_time : Option Rat := none
  gender : Option String := none
  primary_language : Option String := none
  segments_count : Option Nat := none
deriving Repr, DecidableEq

/-- One element of the `"segments"` array of the analysis JSON, with every
field optional, as `format_enhanced_predictions` accesses them via `.get`. -/
structure SegmentJson where
  speaker_id : Option String := none
  start_time : Option Rat := none
  end_time : Option Rat := none
  text : Option String := none
  language : Option String := none
  gender : Option String := none
  emotion : Option String := none
  confidence : Option Rat := none
deriving Repr, DecidableEq

/-- The analysis JSON dict returned by `json.loads` on model output or by one
of the fixed fallback literals; every key optional. -/
structure AnalysisJson where
  segments : Option (List SegmentJson) := none
  speakers : Option (List SpeakerJson) := none
  summary_uzbek : Option String := none
  total_duration : Option Rat := none
  languages_detected : Option (List String) := none
  dominant_emotion : Option String := none
  total_speakers : Option Nat := none
  emotions_detected : Option (List String) := none
  named_entities : Option (List String) := none
deriving Repr, DecidableEq

/-- Python string truthiness for an optional string field:
`if d.get(k):` is true iff the key is present with a non-empty value. -/
def truthyStr : Option String → Bool
  | some s => s ≠ ""
  | none => false

/-! ## The fixed fallback payloads of the Model Client -/

/-- `get_fallback_response()` (enhanced_api.py lines 377-396): the payload
returned when the model withholds content. -/
def get_fallback_response : AnalysisJson :=
  { segments := some [
      { start_time := some 0
        end_time := some 10
        speaker_id := some "Speaker_1"
        text := some "[Content could not be analyzed due to safety filters]"
        language := some "unknown"
        gender := some "unknown"
        emotion := some "neutral" } ]
    summary_uzbek := some "Audio tahlili xavfsizlik filtrlari tufayli bajarilmadi. Iltimos, audio faylni tekshiring va qayta urinib ko\x27ring."
    languages_detected := some ["unknown"]
    total_speakers := some 1
    emotions_detected := some ["neutral"]
    named_entities := some [] }

/-- The inline fallback literal returned after the third consecutive
`json.JSONDecodeError` (enhanced_api.py lines 476-494). -/
def fallbackParseError : AnalysisJson :=
  { segments := some [
      { speaker_id := some "Speaker 1"
        start_time := some 0
        end_time := some 1
        text := some "Audio tahlil qilishda xatolik yuz berdi"
        language := some "Uzbek"
        gender := some "Unknown"
        emotion := some "Neutral"
        confidence := some 0 } ]
    speakers := some []
    summary_uzbek := some "Audio tahlil qilishda xatolik yuz berdi"
    total_duration := some 0
    languages_detected := some []
    dominant_emotion := some "Neutral" }

/-- The inline fallback literal returned after the third consecutive generic
exception (transport error etc., enhanced_api.py lines 502-520). -/
def fallbackGeminiError : AnalysisJson :=
  { segments := some [
      { speaker_id := some "Speaker 1"
        start_time := some 0
        end_time := some 1
        text := some "Audio tahlilida xatolik"
        language := some "Uzbek"
        gender := some "Unknown"
        emotion := some "Neutral"
        confidence := some 0 } ]
    speakers := some []
    summary_uzbek := some "Audio tahlilida xatolik"
    total_duration := some 0
    languages_detected := some []
    dominant_emotion := some "Neutral" }

/-! ## The Model Client retry loop (`analyze_audio_with_gemini`) -/

/-- Outcome of one model invocation (init + upload + `generate_content` +
reading `response`), as observed by the `try` body of the retry loop:
* `ok r` — the response has parts and `json.loads` of the (fence-stripped)
  text succeeds with value `r`;
* `parseError` — the response has parts but `json.loads` raises
  `JSONDecodeError`;
* `blocked fr` — `response.parts` is empty; `fr` is the finish reason of the
  first candidate when candidates are present (`none` when absent);
* `transportError` — any step of the invocation raised a non-JSON exception
  (network fault, upload failure, SDK error). -/
inductive AttemptOutcome
  | ok (r : AnalysisJson)
  | parseError
  | blocked (fr : Option Nat)
  | transportError
deriving Repr, DecidableEq

/-- Result of `analyze_audio_with_gemini`: either a returned dict, or the
terminal `raise HTTPException(500, ...)` after the loop. -/
inductive AnalyzeResult
  | ok (r : AnalysisJson)
  | raised
deriving Repr, DecidableEq

/-- Python truthiness of `response.candidates and response.candidates[0].finish_reason`
once `response.parts` is empty: true iff a finish reason is present and
non-zero. -/
def frTruthy : Option Nat → Bool
  | some n => n ≠ 0
  | none => false

/-- The `while retry_count < max_retries` loop of `analyze_audio_with_gemini`
(enhanced_api.py lines 404-521), parametrised by the oracle of invocation
outcomes (the `i`-th `generate_content`-bearing invocation yields
`oracle i`). `gas = max_retries - retry_count = 3 - retry_count`; the loop
condition `retry_count < 3` is `gas ≥ 1`, and falling out of the loop
(`gas = 0`) reaches the terminal raise (line 524).

Branch map (with `rc = 3 - gas` the Python `retry_count`):
* parts + parse ok → `return result`;
* `JSONDecodeError` → `rc += 1`; if `rc ≥ 3` return `fallbackParseError`
  else `continue`;
* generic exception → `rc += 1`; if `rc ≥ 3` return `fallbackGeminiError`
  else `continue`;
* no parts, truthy finish reason = 2 (SAFETY) → `rc += 1`; if `rc < 3`,
  issue the simplified-prompt invocation (consuming the next oracle entry):
  parts + parse ok → return its result; parts + `JSONDecodeError` → caught
  by the outer handler, `rc += 1` again, fall back / continue; no parts →
  return `get_fallback_response`; exception → outer generic handler,
  `rc += 1` again, fall back / continue. If `rc ≥ 3` already, return
  `get_fallback_response`;
* no parts, truthy non-safety finish reason → `get_fallback_response`;
* no parts, falsy/absent finish reason → `get_fallback_response`. -/
def analyzeLoop (oracle : Nat → AttemptOutcome) : Nat → Nat → AnalyzeResult
  | _, 0 => .raised
  | i, gas + 1 =>
    match oracle i with
    | .ok r => .ok r
    | .parseError =>
      if gas = 0 then .ok fallbackParseError else analyzeLoop oracle (i + 1) gas
    | .transportError =>
      if gas = 0 then .ok fallbackGeminiError else analyzeLoop oracle (i + 1) gas
    | .blocked fr =>
      if frTruthy fr then
        if fr = some 2 then
          if gas ≥ 1 then
            match oracle (i + 1) with
            | .ok r => .ok r
            | .blocked _ => .ok get_fallback_response
            | .parseError =>
              if gas ≤ 1 then .ok fallbackParseError
              else analyzeLoop oracle (i + 2) (gas - 1)
            | .transportError =>
              if gas ≤ 1 then .ok fallbackGeminiError
              else analyzeLoop oracle (i + 2) (gas - 1)
          else .ok get_fallback_response
        else .ok get_fallback_response
      else .ok get_fallback_response
termination_by _ gas => gas
decreasing_by all_goals omega

/-- `analyze_audio_with_gemini`: run the retry loop with `retry_count = 0`
(`gas = max_retries = 3`), first invocation consuming `oracle 0`. -/
def analyze_audio_with_gemini (oracle : Nat → AttemptOutcome) : AnalyzeResult :=
  analyzeLoop oracle 0 3

/-- An invocation outcome that does not deliver a parsed result. -/
def isFailure : AttemptOutcome → Bool
  | .ok _ => false
  | _ => true

/-! ## The Result Formatter (`format_enhanced_predictions`) -/

/-- The `"value"` dict of an annotation entry: labels, choices or textarea
region values (all with `"channel": 0` in the code), or the region-less
summary text value. The field `endT` embeds the JSON key `"end"`. -/
inductive EntryValue
  | labelsValue (start endT : Rat) (labels : List String) (channel : Nat)
  | choicesValue (start endT : Rat) (choices : List String) (channel : Nat)
  | textValue (start endT : Rat) (text : List String) (channel : Nat)
  | summaryValue (text : List String)
deriving Repr, DecidableEq

/-- One item of the prediction `"result"` list. `id` is the region
identifier; the summary entry is built without one. -/
structure AnnotationEntry where
  id : Option String
  value : EntryValue
  from_name : String
  to_name : String
  type : String
  origin : String
deriving Repr, DecidableEq

/-- The whole return value of `format_enhanced_predictions`. -/
structure PredictionOut where
  result : List AnnotationEntry
  score : Rat
  model_version : String
deriving Repr, DecidableEq

/-- The five candidate entries for one segment (enhanced_api.py lines
534-619), given the region identifier `idStr` drawn for the segment:
the speaker-label entry is unconditional (`speaker_id` defaulting to
`"Speaker 1"`); language, gender, emotion and transcription entries are
emitted only when the field is present and non-empty (Python truthiness of
`segment.get(...)`). `start`/`end` default to `0` when absent. -/
def segmentEntries (idStr : String) (seg : SegmentJson) : List AnnotationEntry :=
  let st := seg.start_time.getD 0
  let en := seg.end_time.getD 0
  [{ id := some idStr
     value := .labelsValue st en [seg.speaker_id.getD "Speaker 1"] 0
     from_name := "speaker_labels", to_name := "audio"
     type := "labels", origin := "prediction" }]
  ++ (match seg.language with
      | some l => if l ≠ "" then
          [{ id := some idStr, value := .choicesValue st en [l] 0
             from_name := "language", to_name := "audio"
             type := "choices", origin := "prediction" }]
        else []
      | none => [])
  ++ (match seg.gender with
      | some g => if g ≠ "" then
          [{ id := some idStr, value := .choicesValue st en [g] 0
             from_name := "gender", to_name := "audio"
             type := "choices", origin := "prediction" }]
        else []
      | none => [])
  ++ (match seg.emotion with
      | some e => if e ≠ "" then
          [{ id := some idStr, value := .choicesValue st en [e] 0
             from_name := "emotion", to_name := "audio"
             type := "choices", origin := "prediction" }]
        else []
      | none => [])
  ++ (match seg.text with
      | some t => if t ≠ "" then
          [{ id := some idStr, value := .textValue st en [t] 0
             from_name := "transcription", to_name := "audio"
             type := "textarea", origin := "prediction" }]
        else []
      | none => [])

/-- The task-level summary entry (enhanced_api.py lines 623-631): no region
identifier. -/
def summaryEntry (s : String) : AnnotationEntry :=
  { id := none
    value := .summaryValue [s]
    from_name := "summary", to_name := "audio"
    type := "textarea", origin := "prediction" }

/-- The per-segment loop of the formatter. Each iteration draws a fresh
region identifier (`str(uuid.uuid4())[:8]` in the code). Fresh-identifier
generation is modelled by an identifier supply `supply : Nat → String`
together with a running counter `k`: the loop for the segment at position
`k` uses `supply k`, mirroring that `uuid4` yields a stream of
pairwise-distinct fresh values across all calls in the process. -/
def formatSegments (supply : Nat → String) (k : Nat) :
    List SegmentJson → List AnnotationEntry
  | [] => []
  | seg :: rest => segmentEntries (supply k) seg ++ formatSegments supply (k + 1) rest

/-- `format_enhanced_predictions(analysis, task_id)` (enhanced_api.py lines
527-637). `supply`/`offset` model the process-wide fresh-uuid stream and how
many identifiers had been drawn before this call; `task_id` is accepted and
unused, exactly as in the code. `if analysis.get("segments"):` and
`if analysis.get("summary_uzbek"):` are Python-truthiness guards. -/
def format_enhanced_predictions (supply : Nat → String) (offset : Nat)
    (analysis : AnalysisJson) (task_id : Nat) : PredictionOut :=
  let segPart : List AnnotationEntry :=
    match analysis.segments with
    | some segs => if segs ≠ [] then formatSegments supply offset segs else []
    | none => []
  let sumPart : List AnnotationEntry :=
    match analysis.summary_uzbek with
    | some s => if s ≠ "" then [summaryEntry s] else []
    | none => []
  { result := segPart ++ sumPart
    score := 95 / 100
    model_version := "gemini-1.5-flash-enhanced" }

/-- Number of identifiers a call to `format_enhanced_predictions` draws from
the uuid stream: one per segment iterated. A second call on the same value
therefore starts at this offset further into the stream. -/
def idsDrawn (analysis : AnalysisJson) : Nat :=
  match analysis.segments with
  | some segs => if segs ≠ [] then segs.length else 0
  | none => 0

/-! ## Effects and environments for the effectful components -/

/-- The ffmpeg invocation built by `extract_audio_segment` (enhanced_api.py
lines 794-803, 806-810): input path, `-ss` start, `-t` duration, output
path, and the `subprocess.run` timeout in seconds. -/
structure FfmpegCall where
  input : String
  start : Rat
  duration : Rat
  output : String
  timeoutSecs : Nat
deriving Repr, DecidableEq

/-- External effects performed by the resolver and the extractor, in order:
filesystem existence probes (`os.path.exists`), glob searches (`glob.glob`),
temp-file creation (`tempfile.NamedTemporaryFile`), the credential-refresh
POST and the download GET (with their source-level timeouts, in seconds),
file deletion (`os.unlink`), and the ffmpeg subprocess. -/
inductive Effect
  | probeExists (path : String)
  | globCall (pattern : String)
  | createTemp (path : String)
  | refreshPost (timeoutSecs : Rat)
  | httpGet (url : String) (timeoutSecs : Rat)
  | unlink (path : String)
  | runProc (call : FfmpegCall)
deriving Repr, DecidableEq

/-- Whether the resolver keeps a pre-existing file or created a fresh
(temporary) one. The code has no such flag; it is the spec's ownership
classification, derived here from which branch produced the result: only the
network-download branch creates a file. -/
inductive Ownership
  | temporary
  | preExisting
deriving Repr, DecidableEq

/-- Result of `download_audio`: a local path (with its ownership
classification) or a raised `HTTPException` with the given status code
(400 for blob references, 500 for download failures). -/
inductive DownloadResult
  | ok (path : String) (own : Ownership)
  | err (status : Nat)
deriving Repr, DecidableEq

/-- Environment of `download_audio`: configuration read at startup
(`mediaRoot` = the expanded `~/.local/share/label-studio/media`,
`labelStudioUrl` = `LABEL_STUDIO_URL`, `apiKey` = `LABEL_STUDIO_API_KEY`),
the filesystem (`pathExists`, `glob`), the standard library's pure helpers
(`unquote` for `urllib.parse.unquote`; `uploadMatch`, `localFilesMatch`,
`filenameMatch` for the three `re.search` patterns
`/data/upload/(\d+)/(.+?)(?:\?|$)`, `/data/local-files/\?d=(.+?)(?:&|$)` and
`([^/]+\.(?:mp3|wav|ogg|flac|m4a))(?:\?|$)`, each returning the captured
groups of the first match, if any), the name `tempfile` hands out next
(`tempPath`), the outcome of a credential-refresh POST (`refreshResult` is
`some access` exactly when the POST returns HTTP 200 with an `access` field),
and whether the download GET succeeds (`downloadOk`). -/
structure ResolverEnv where
  mediaRoot : String
  labelStudioUrl : String
  apiKey : String
  pathExists : String → Bool
  glob : String → List String
  unquote : String → String
  uploadMatch : String → Option (String × String)
  localFilesMatch : String → Option String
  filenameMatch : String → Option String
  tempPath : String
  refreshResult : Option String
  downloadOk : Bool

/-! ## The Audio Source Resolver (`download_audio`) -/

/-- Python `s.startswith(pre)` (Lean `String.startsWith`), computed on the
character list so concrete instances reduce in the kernel. -/
def strStartsWith (s pre : String) : Bool := pre.toList.isPrefixOf s.toList

/-- Python `s[n:]` (Lean `String.drop`), computed on the character list. -/
def strDrop (s : String) (n : Nat) : String := String.mk (s.toList.drop n)

/-- `re.sub(r'^https?://[^/]+', '', url)` (enhanced_api.py line 240): strip a
scheme and a non-empty host part, up to but not including the next `/`; if
the host part would be empty the pattern does not match and the string is
returned unchanged. -/
def stripHostTail (orig : String) (rest : String) : String :=
  let cs := rest.toList
  if (cs.takeWhile (fun c => c ≠ '/')).isEmpty then orig
  else String.mk (cs.dropWhile (fun c => c ≠ '/'))

/-- Strip a leading `http://host` or `https://host` prefix, as line 240. -/
def stripSchemeHost (url : String) : String :=
  if strStartsWith url "http://" then stripHostTail url (strDrop url 7)
  else if strStartsWith url "https://" then stripHostTail url (strDrop url 8)
  else url

/-- Python `s.lstrip('/')`: drop all leading slashes. -/
def lstripSlash (s : String) : String :=
  String.mk (s.toList.dropWhile (fun c => c = '/'))

/-- Chain two resolution probes: if the first produced a result keep it,
otherwise run the second and concatenate the effect traces (Python early
`return` inside the sequence of `if` blocks). -/
def orElseStep (a : Option DownloadResult × List Effect)
    (b : Unit → Option DownloadResult × List Effect) :
    Option DownloadResult × List Effect :=
  match a with
  | (some r, t) => (some r, t)
  | (none, t) => ((b ()).1, t ++ (b ()).2)

/-- Step: `if url.startswith("/") and os.path.exists(url): return url`
(lines 244-246); the existence probe happens only when the first conjunct
holds (Python short-circuit). -/
def stepAbsolute (env : ResolverEnv) (url : String) :
    Option DownloadResult × List Effect :=
  if strStartsWith url "/" then
    if env.pathExists url then (some (.ok url .preExisting), [.probeExists url])
    else (none, [.probeExists url])
  else (none, [])

/-- Step: the `/data/upload/{project_id}/{filename}` pattern (lines
252-266): exact path under the media root, then a glob on
`*{basename}*` in the same directory. -/
def stepUpload (env : ResolverEnv) (url : String) :
    Option DownloadResult × List Effect :=
  match env.uploadMatch url with
  | none => (none, [])
  | some (projectId, g2) =>
    let filename := env.unquote g2
    let localPath := env.mediaRoot ++ "/upload/" ++ projectId ++ "/" ++ filename
    if env.pathExists localPath then
      (some (.ok localPath .preExisting), [.probeExists localPath])
    else
      let base := (filename.splitOn "/").getLastD ""
      let pattern := env.mediaRoot ++ "/upload/" ++ projectId ++ "/*" ++ base ++ "*"
      match env.glob pattern with
      | m :: _ => (some (.ok m .preExisting), [.probeExists localPath, .globCall pattern])
      | [] => (none, [.probeExists localPath, .globCall pattern])

/-- Step: the `/data/local-files/?d=path` pattern (lines 269-274). -/
def stepLocalFiles (env : ResolverEnv) (url : String) :
    Option DownloadResult × List Effect :=
  match env.localFilesMatch url with
  | none => (none, [])
  | some g =>
    let filePath := env.unquote g
    if env.pathExists filePath then
      (some (.ok filePath .preExisting), [.probeExists filePath])
    else (none, [.probeExists filePath])

/-- The `for project_dir in glob.glob(...)` loop of the filename search
(lines 282-292): per directory, a `*{filename}*` glob, then an exact-path
existence check. -/
def searchProjectDirs (env : ResolverEnv) (filename : String) :
    List String → Option DownloadResult × List Effect
  | [] => (none, [])
  | dir :: rest =>
    let pattern := dir ++ "/*" ++ filename ++ "*"
    match env.glob pattern with
    | m :: _ => (some (.ok m .preExisting), [.globCall pattern])
    | [] =>
      let exact := dir ++ "/" ++ filename
      if env.pathExists exact then
        (some (.ok exact .preExisting), [.globCall pattern, .probeExists exact])
      else
        let p := searchProjectDirs env filename rest
        (p.1, .globCall pattern :: .probeExists exact :: p.2)

/-- Step: recognizable audio filename anywhere in the reference (lines
277-292): enumerate the upload project directories and search each. -/
def stepFilename (env : ResolverEnv) (url : String) :
    Option DownloadResult × List Effect :=
  match env.filenameMatch url with
  | none => (none, [])
  | some g =>
    let filename := env.unquote g
    let dirsPattern := env.mediaRoot ++ "/upload/*"
    let p := searchProjectDirs env filename (env.glob dirsPattern)
    (p.1, .globCall dirsPattern :: p.2)

/-- Step: bare filename (no scheme, no leading slash) under the fixed root
(lines 295-299). -/
def stepBareName (env : ResolverEnv) (url : String) :
    Option DownloadResult × List Effect :=
  if !(strStartsWith url "http://" || strStartsWith url "https://"
      || strStartsWith url "file://" || strStartsWith url "/") then
    let localPath := "/mnt/mata/labelStudio/" ++ url
    if env.pathExists localPath then
      (some (.ok localPath .preExisting), [.probeExists localPath])
    else (none, [.probeExists localPath])
  else (none, [])

/-- Try a list of candidate paths in order, first existing wins (the
`for path in paths_to_try` loop, lines 309-312). -/
def tryPaths (env : ResolverEnv) : List String → Option DownloadResult × List Effect
  | [] => (none, [])
  | p :: rest =>
    if env.pathExists p then (some (.ok p .preExisting), [.probeExists p])
    else
      let q := tryPaths env rest
      (q.1, .probeExists p :: q.2)

/-- Step: rooted path retried under the fallback roots (lines 302-312). -/
def stepRootedTries (env : ResolverEnv) (url : String) :
    Option DownloadResult × List Effect :=
  if strStartsWith url "/" && !(strStartsWith url "http://" || strStartsWith url "https://") then
    tryPaths env [url, "/mnt/mata/labelStudio" ++ url,
                  "/mnt/mata/labelStudio/" ++ lstripSlash url]
  else (none, [])

/-- Step: `file://` reference (lines 315-319). -/
def stepFileUri (env : ResolverEnv) (url : String) :
    Option DownloadResult × List Effect :=
  if strStartsWith url "file://" then
    let localPath := strDrop url 7
    if env.pathExists localPath then
      (some (.ok localPath .preExisting), [.probeExists localPath])
    else (none, [.probeExists localPath])
  else (none, [])

/-- `get_access_token` (lines 191-217): no key → no token; a JWT-style key
(prefix `eyJ`) is exchanged via the refresh POST (timeout 10 s), falling back
to the original key when the exchange does not yield an access token; a
legacy key is returned as-is with no network call. -/
def get_access_token (env : ResolverEnv) : Option String × List Effect :=
  if env.apiKey = "" then (none, [])
  else if strStartsWith env.apiKey "eyJ" then
    match env.refreshResult with
    | some access => (some access, [.refreshPost 10])
    | none => (some env.apiKey, [.refreshPost 10])
  else (some env.apiKey, [])

/-- Last-resort network download (lines 322-368): create the temp file,
build the absolute URL (prefixing `LABEL_STUDIO_URL`, with `/data/` for
relative references), fetch the token, GET with a 60 s client timeout; on
success return the temp path as `temporary`; on any HTTP/transport error
unlink the temp file and re-raise, which the outer handler converts to an
HTTP 500. The `Authorization` header (Bearer vs Token by `eyJ` prefix) is
computed from the token but carries no effect. -/
def stepDownload (env : ResolverEnv) (url : String) : DownloadResult × List Effect :=
  let downloadUrl :=
    if !(strStartsWith url "http://" || strStartsWith url "https://") then
      if strStartsWith url "/" then env.labelStudioUrl ++ url
      else env.labelStudioUrl ++ "/data/" ++ url
    else url
  let tok := get_access_token env
  if env.downloadOk then
    (.ok env.tempPath .temporary,
     .createTemp env.tempPath :: tok.2 ++ [.httpGet downloadUrl 60])
  else
    (.err 500,
     .createTemp env.tempPath :: tok.2 ++ [.httpGet downloadUrl 60, .unlink env.tempPath])

/-- `download_audio(url)` (enhanced_api.py lines 220-374): the blob guard
runs before anything else (raising HTTP 400 with no effect performed); then
the scheme/host prefix is stripped and the probes run in source order with
short-circuiting, the network download last. -/
def download_audio (env : ResolverEnv) (url0 : String) : DownloadResult × List Effect :=
  if strStartsWith url0 "blob:" then (.err 400, [])
  else
    let url := stripSchemeHost url0
    let r :=
      orElseStep (stepAbsolute env url) (fun _ =>
      orElseStep (stepUpload env url) (fun _ =>
      orElseStep (stepLocalFiles env url) (fun _ =>
      orElseStep (stepFilename env url) (fun _ =>
      orElseStep (stepBareName env url) (fun _ =>
      orElseStep (stepRootedTries env url) (fun _ =>
      orElseStep (stepFileUri env url) (fun _ =>
        let d := stepDownload env url
        (some d.1, d.2))))))))
    (r.1.getD (.err 500), r.2)

/-! ## The Segment Extractor (`extract_audio_segment`) -/

/-- Outcome of the `subprocess.run` of ffmpeg. -/
inductive RunOutcome
  | exit (code : Int)
  | timedOut
deriving Repr, DecidableEq

/-- Environment of the extractor: the temp name handed out for the segment
file, the subprocess behaviour, and the filesystem at cleanup time. -/
structure ExtractEnv where
  tempPath : String
  run : FfmpegCall → RunOutcome
  pathExists : String → Bool

/-- Result of `extract_audio_segment`: the segment path, or the raised
`Exception("FFmpeg failed: ...")` / `Exception("FFmpeg timeout")`. -/
inductive ExtractResult
  | ok (path : String)
  | errFfmpegFailed
  | errTimeout
deriving Repr, DecidableEq

/-- `extract_audio_segment(audio_path, start_time, end_time)`
(enhanced_api.py lines 784-821). The temp segment file is created first;
ffmpeg is invoked with `-ss start_time -t (end_time - start_time)` and a
30 s timeout. A non-zero exit raises inside the `try`, which the generic
`except Exception` handler catches: it probes and unlinks the partial file,
then re-raises. A `TimeoutExpired` is caught by its own dedicated handler,
which raises a fresh `Exception("FFmpeg timeout")`; handlers of the same
`try` do not catch exceptions raised by a sibling handler, so this path
performs no existence probe and no unlink. -/
def extract_audio_segment (env : ExtractEnv) (audioPath : String)
    (startTime endTime : Rat) : ExtractResult × List Effect :=
  let segmentPath := env.tempPath
  let call : FfmpegCall :=
    { input := audioPath, start := startTime, duration := endTime - startTime
      output := segmentPath, timeoutSecs := 30 }
  match env.run call with
  | .exit code =>
    if code ≠ 0 then
      if env.pathExists segmentPath then
        (.errFfmpegFailed,
         [.createTemp segmentPath, .runProc call, .probeExists segmentPath,
          .unlink segmentPath])
      else
        (.errFfmpegFailed,
         [.createTemp segmentPath, .runProc call, .probeExists segmentPath])
    else (.ok segmentPath, [.createTemp segmentPath, .runProc call])
  | .timedOut => (.errTimeout, [.createTemp segmentPath, .runProc call])

/-! ## Endpoint cleanup and the `predict` batch loop -/

/-- The cleanup condition both `predict` (lines 718-719) and
`transcribe_segment` (lines 917-918) apply to the resolved audio path:
`if os.path.exists(audio_path) and audio_path.startswith("/tmp"): os.unlink(...)`. -/
def resolvedAudioCleanupDeletes (pathExists : String → Bool) (path : String) : Bool :=
  pathExists path && strStartsWith path "/tmp"

/-- The cleanup condition `transcribe_segment` applies to the extracted
segment path (lines 919-920): deleted whenever it exists, no prefix check. -/
def segmentCleanupDeletes (pathExists : String → Bool) (path : String) : Bool :=
  pathExists path

/-- One Label Studio task as `predict` reads it: `task.get("id", 1)` and
`task.get("data", {}).get("audio")`. -/
structure LSTask where
  id : Option Nat := none
  audio : Option String := none

/-- What processing one task (resolve + analyze + format + cleanup) yields:
a prediction, or any raised exception (caught by the per-task handler). -/
inductive TaskOutcome
  | success (pred : PredictionOut)
  | failure

/-- The degraded entry appended when processing a task raises (lines
724-728). -/
def emptyPrediction : PredictionOut :=
  { result := [], score := 0, model_version := "gemini-1.5-flash-enhanced" }

/-- The `for task in tasks` loop of `predict` (enhanced_api.py lines
689-728), with the per-task pipeline abstracted by `proc` (its internals do
not affect which tasks contribute entries): a task with no truthy audio
reference is skipped by `continue` with nothing appended; otherwise a
successful pipeline appends its prediction and a raising pipeline appends
the degraded `emptyPrediction`. -/
def predictResults (proc : LSTask → TaskOutcome) : List LSTask → List PredictionOut
  | [] => []
  | t :: ts =>
    if truthyStr t.audio then
      (match proc t with
       | .success p => p
       | .failure => emptyPrediction) :: predictResults proc ts
    else predictResults proc ts

/-! ## External call sites and their timeouts -/

/-- Every external (network or subprocess) invocation site in
enhanced_api.py, with the timeout explicitly passed at that site, if any:
* `genai.upload_file` in `analyze_audio_with_gemini` (line 409) — none;
* `model.generate_content` main prompt (line 412) — none;
* `model.generate_content` simplified retry prompt (line 434) — none;
* token-refresh `client.post` (lines 202-206) — `timeout=10.0`;
* download `client.get` (`AsyncClient(timeout=60.0)`, lines 340, 352) — 60;
* ffmpeg `subprocess.run` (lines 806-810) — `timeout=30`;
* `genai.upload_file` in `transcribe_segment_with_gemini` (line 830) — none;
* `model.generate_content` in `transcribe_segment_with_gemini` (line 833) — none. -/
structure ExternalCall where
  site : String
  isModelCall : Bool
  timeoutSecs : Option Rat
deriving Repr, DecidableEq

/-- The table of external invocation sites of enhanced_api.py. -/
def externalCalls : List ExternalCall :=
  [ { site := "genai.upload_file analyze", isModelCall := true, timeoutSecs := none }
  , { site := "model.generate_content analyze main", isModelCall := true, timeoutSecs := none }
  , { site := "model.generate_content analyze safety retry", isModelCall := true, timeoutSecs := none }
  , { site := "httpx client.post token refresh", isModelCall := false, timeoutSecs := some 10 }
  , { site := "httpx client.get download", isModelCall := false, timeoutSecs := some 60 }
  , { site := "subprocess.run ffmpeg", isModelCall := false, timeoutSecs := some 30 }
  , { site := "genai.upload_file transcribe segment", isModelCall := true, timeoutSecs := none }
  , { site := "model.generate_content transcribe segment", isModelCall := true, timeoutSecs := none } ]

/-! ## Theorems -/

/-- Helper: whenever one iteration of the retry loop is still permitted
(`retry_count < 3`, i.e. `gas ≥ 1`), the loop terminates through one of its
`return` statements and never reaches the terminal raise. -/
theorem analyzeLoop_ne_raised (oracle : Nat → AttemptOutcome) :
    ∀ gas, 1 ≤ gas → ∀ i, analyzeLoop oracle i gas ≠ AnalyzeResult.raised := by
  intro gas
  induction gas using Nat.strong_induction_on with
  | _ gas ih =>
    intro hgas i
    obtain ⟨g, rfl⟩ : ∃ g, gas = g + 1 := ⟨gas - 1, by omega⟩
    rw [analyzeLoop]
    cases ho : oracle i with
    | ok r => simp
    | parseError =>
      by_cases hg : g = 0
      · simp [hg]
      · simpa [hg] using ih g (by omega) (by omega) (i + 1)
    | transportError =>
      by_cases hg : g = 0
      · simp [hg]
      · simpa [hg] using ih g (by omega) (by omega) (i + 1)
    | blocked fr =>
      by_cases hfr : frTruthy fr
      · by_cases h2 : fr = some 2
        · by_cases hg1 : g ≥ 1
          · cases ho2 : oracle (i + 1) with
            | ok r => simp [frTruthy, hfr, h2, hg1]
            | blocked fr2 => simp [frTruthy, hfr, h2, hg1]
            | parseError =>
              by_cases hle : g ≤ 1
              · simp [frTruthy, hfr, h2, hg1, hle]
              · simpa [frTruthy, hfr, h2, hg1, hle] using ih (g - 1) (by omega) (by omega) (i + 2)
            | transportError =>
              by_cases hle : g ≤ 1
              · simp [frTruthy, hfr, h2, hg1, hle]
              · simpa [frTruthy, hfr, h2, hg1, hle] using ih (g - 1) (by omega) (by omega) (i + 2)
          · simp [frTruthy, hfr, h2, hg1]
        · simp [hfr, h2]
      · simp [hfr]

/-- Helper: when every invocation outcome is a failure, the loop returns one
of the three fixed fallback payloads. -/
theorem analyzeLoop_all_fail (oracle : Nat → AttemptOutcome)
    (hfail : ∀ j, isFailure (oracle j) = true) :
    ∀ gas, 1 ≤ gas → ∀ i,
      analyzeLoop oracle i gas = AnalyzeResult.ok get_fallback_response ∨
      analyzeLoop oracle i gas = AnalyzeResult.ok fallbackParseError ∨
      analyzeLoop oracle i gas = AnalyzeResult.ok fallbackGeminiError := by
  intro gas
  induction gas using Nat.strong_induction_on with
  | _ gas ih =>
    intro hgas i
    obtain ⟨g, rfl⟩ : ∃ g, gas = g + 1 := ⟨gas - 1, by omega⟩
    rw [analyzeLoop]
    cases ho : oracle i with
    | ok r =>
      have := hfail i
      rw [ho] at this
      simp [isFailure] at this
    | parseError =>
      by_cases hg : g = 0
      · simp [hg]
      · simpa [hg] using ih g (by omega) (by omega) (i + 1)
    | transportError =>
      by_cases hg : g = 0
      · simp [hg]
      · simpa [hg] using ih g (by omega) (by omega) (i + 1)
    | blocked fr =>
      by_cases hfr : frTruthy fr
      · by_cases h2 : fr = some 2
        · by_cases hg1 : g ≥ 1
          · cases ho2 : oracle (i + 1) with
            | ok r =>
              have := hfail (i + 1)
              rw [ho2] at this
              simp [isFailure] at this
            | blocked fr2 => simp [frTruthy, hfr, h2, hg1]
            | parseError =>
              by_cases hle : g ≤ 1
              · simp [frTruthy, hfr, h2, hg1, hle]
              · simpa [frTruthy, hfr, h2, hg1, hle] using ih (g - 1) (by omega) (by omega) (i + 2)
            | transportError =>
              by_cases hle : g ≤ 1
              · simp [frTruthy, hfr, h2, hg1, hle]
              · simpa [frTruthy, hfr, h2, hg1, hle] using ih (g - 1) (by omega) (by omega) (i + 2)
          · simp [frTruthy, hfr, h2, hg1]
        · simp [hfr, h2]
      · simp [hfr]

/-- C1: for every oracle of model-invocation outcomes,
`analyze_audio_with_gemini` never reaches the terminal raise after the retry
loop; and when every invocation fails (transport error, safety block, or
JSON parse failure — in particular three consecutive failures), it returns
one of the fixed degraded payloads, each of which carries a non-empty
`segments` list. -/
theorem C1_analyze_never_raises (oracle : Nat → AttemptOutcome) :
    analyze_audio_with_gemini oracle ≠ AnalyzeResult.raised ∧
    ((∀ j, isFailure (oracle j) = true) →
      ∃ r, analyze_audio_with_gemini oracle = AnalyzeResult.ok r ∧
        (r = get_fallback_response ∨ r = fallbackParseError ∨ r = fallbackGeminiError) ∧
        r.segments.getD [] ≠ []) := by
  constructor
  · exact analyzeLoop_ne_raised oracle 3 (by omega) 0
  · intro hfail
    rcases analyzeLoop_all_fail oracle hfail 3 (by omega) 0 with h | h | h
    · exact ⟨get_fallback_response, h, Or.inl rfl, by decide⟩
    · exact ⟨fallbackParseError, h, Or.inr (Or.inl rfl), by decide⟩
    · exact ⟨fallbackGeminiError, h, Or.inr (Or.inr rfl), by decide⟩

/-- C1 witness: with an oracle that always fails with a transport error, the
analysis still returns a degraded payload with non-empty segments. -/
theorem C1_analyze_never_raises_witness :
    analyze_audio_with_gemini (fun _ => AttemptOutcome.transportError) ≠ AnalyzeResult.raised ∧
    ∃ r, analyze_audio_with_gemini (fun _ => AttemptOutcome.transportError) = AnalyzeResult.ok r ∧
      (r = get_fallback_response ∨ r = fallbackParseError ∨ r = fallbackGeminiError) ∧
      r.segments.getD [] ≠ [] :=
  ⟨(C1_analyze_never_raises (fun _ => AttemptOutcome.transportError)).1,
   (C1_analyze_never_raises (fun _ => AttemptOutcome.transportError)).2 (fun _ => rfl)⟩

/-- A sample successfully parsed analysis value (the one-segment scenario of
the spec: speaker, times, text, language; no gender/emotion). -/
def sampleParsed : AnalysisJson :=
  { segments := some [
      { speaker_id := some "Speaker 1"
        start_time := some 0
        end_time := some (53 / 10)
        text := some "salom"
        language := some "Uzbek" } ] }

/-- C4: a safety-classified block (finish reason 2) on the first invocation
followed by a simplified-prompt retry whose content parses as JSON makes
`analyze_audio_with_gemini` return the retry's parsed result, not the
safety fallback. -/
theorem C4_safety_retry_returns_parsed (oracle : Nat → AttemptOutcome) (r : AnalysisJson)
    (h0 : oracle 0 = AttemptOutcome.blocked (some 2))
    (h1 : oracle 1 = AttemptOutcome.ok r) :
    analyze_audio_with_gemini oracle = AnalyzeResult.ok r := by
  unfold analyze_audio_with_gemini
  rw [show (3 : Nat) = 2 + 1 from rfl, analyzeLoop, h0]
  simp [frTruthy, h1]

/-- C4 witness: concrete oracle blocking once for safety, then succeeding. -/
theorem C4_safety_retry_returns_parsed_witness :
    analyze_audio_with_gemini
      (fun n => if n = 0 then AttemptOutcome.blocked (some 2) else AttemptOutcome.ok sampleParsed) =
      AnalyzeResult.ok sampleParsed :=
  C4_safety_retry_returns_parsed _ sampleParsed rfl rfl

/-- Helper: every entry emitted for one segment carries that segment's
region identifier. -/
theorem mem_segmentEntries_id (idStr : String) (seg : SegmentJson)
    (e : AnnotationEntry) (he : e ∈ segmentEntries idStr seg) : e.id = some idStr := by
  simp only [segmentEntries] at he
  repeat' split at he
  all_goals simp_all
  all_goals casesm* _ ∨ _
  all_goals simp_all

/-- Helper: every entry emitted for one segment uses one of the five
per-segment `from_name` tags. -/
theorem mem_segmentEntries_from_name (idStr : String) (seg : SegmentJson)
    (e : AnnotationEntry) (he : e ∈ segmentEntries idStr seg) :
    e.from_name = "speaker_labels" ∨ e.from_name = "language" ∨ e.from_name = "gender" ∨
      e.from_name = "emotion" ∨ e.from_name = "transcription" := by
  simp only [segmentEntries] at he
  repeat' split at he
  all_goals simp_all
  all_goals casesm* _ ∨ _
  all_goals simp_all

/-- Helper: entries of the per-segment loop come from some segment of the
list, with the identifier the loop drew for it. -/
theorem mem_formatSegments (supply : Nat → String) (e : AnnotationEntry) :
    ∀ (k : Nat) (segs : List SegmentJson), e ∈ formatSegments supply k segs →
      ∃ j seg, seg ∈ segs ∧ e ∈ segmentEntries (supply j) seg := by
  intro k segs
  induction segs generalizing k with
  | nil => simp [formatSegments]
  | cons s ss ih =>
    intro he
    rw [formatSegments] at he
    rcases List.mem_append.mp he with h | h
    · exact ⟨k, s, List.mem_cons_self s ss, h⟩
    · obtain ⟨j, seg, hseg, hmem⟩ := ih (k + 1) h
      exact ⟨j, seg, List.mem_cons_of_mem s hseg, hmem⟩

/-- An identifier supply with distinct values at the first two positions,
standing in for the pairwise-distinct uuid stream. -/
def sampleSupply : Nat → String := fun n => if n = 0 then "id0" else "id1"

/-- C2 counterexample: the formatter draws a fresh region identifier per
segment from the process-wide uuid stream, so a second call on the very same
analysis value (starting after the identifiers the first call consumed)
produces different output — the outputs are not byte-identical. -/
theorem C2_counterexample :
    format_enhanced_predictions sampleSupply 0 sampleParsed 1 ≠
      format_enhanced_predictions sampleSupply (idsDrawn sampleParsed) sampleParsed 1 := by
  decide

/-- C2 as amended: the formatter is deterministic in the analysis value and
the identifier stream (equal streams and equal stream positions give
byte-identical output, independently of the unused task id), and within one
call all entries emitted for the same segment share that segment's single
region identifier; byte-identity across two successive calls fails only
because each call consumes fresh identifiers. -/
theorem C2_amended_determinism (supply supply2 : Nat → String) (offset : Nat)
    (a : AnalysisJson) (tid tid2 : Nat) (hsup : ∀ n, supply n = supply2 n) :
    format_enhanced_predictions supply offset a tid =
      format_enhanced_predictions supply2 offset a tid2 ∧
    ∀ idStr seg e, e ∈ segmentEntries idStr seg → e.id = some idStr := by
  constructor
  · have h : supply = supply2 := funext hsup
    subst h
    rfl
  · exact fun idStr seg e he => mem_segmentEntries_id idStr seg e he

/-- C2 amended witness: same stream, same position, different task ids —
byte-identical output. -/
theorem C2_amended_determinism_witness :
    format_enhanced_predictions sampleSupply 0 sampleParsed 1 =
      format_enhanced_predictions sampleSupply 0 sampleParsed 2 :=
  (C2_amended_determinism sampleSupply sampleSupply 0 sampleParsed 1 2 (fun _ => rfl)).1

/-- Number of entries of a result list carrying a given `from_name` tag. -/
def countFrom (es : List AnnotationEntry) (n : String) : Nat :=
  (es.filter (fun e => e.from_name == n)).length

/-- Helper: the first entry of a segment is always the speaker-label entry,
with the `"Speaker 1"` default when `speaker_id` is absent. -/
theorem segmentEntries_head (idStr : String) (seg : SegmentJson) :
    (segmentEntries idStr seg).take 1 =
      [{ id := some idStr
         value := EntryValue.labelsValue (seg.start_time.getD 0) (seg.end_time.getD 0)
                    [seg.speaker_id.getD "Speaker 1"] 0
         from_name := "speaker_labels", to_name := "audio"
         type := "labels", origin := "prediction" }] := by
  simp [segmentEntries]

/-- Helper: exactly one language entry when `language` is present and
non-empty, none otherwise. -/
theorem countFrom_language (idStr : String) (seg : SegmentJson) :
    countFrom (segmentEntries idStr seg) "language" =
      if truthyStr seg.language then 1 else 0 := by
  simp only [segmentEntries, countFrom, truthyStr]
  repeat' split
  all_goals simp_all [List.filter_append]

/-- Helper: exactly one gender entry when `gender` is present and non-empty,
none otherwise. -/
theorem countFrom_gender (idStr : String) (seg : SegmentJson) :
    countFrom (segmentEntries idStr seg) "gender" =
      if truthyStr seg.gender then 1 else 0 := by
  simp only [segmentEntries, countFrom, truthyStr]
  repeat' split
  all_goals simp_all [List.filter_append]

/-- Helper: exactly one emotion entry when `emotion` is present and
non-empty, none otherwise. -/
theorem countFrom_emotion (idStr : String) (seg : SegmentJson) :
    countFrom (segmentEntries idStr seg) "emotion" =
      if truthyStr seg.emotion then 1 else 0 := by
  simp only [segmentEntries, countFrom, truthyStr]
  repeat' split
  all_goals simp_all [List.filter_append]

/-- Helper: exactly one transcription entry when `text` is present and
non-empty, none otherwise. -/
theorem countFrom_transcription (idStr : String) (seg : SegmentJson) :
    countFrom (segmentEntries idStr seg) "transcription" =
      if truthyStr seg.text then 1 else 0 := by
  simp only [segmentEntries, countFrom, truthyStr]
  repeat' split
  all_goals simp_all [List.filter_append]

/-- Helper: a segment with no language, gender or emotion and a non-empty
text yields exactly the two entries: speaker label and transcription. -/
theorem segmentEntries_length_two (idStr : String) (seg : SegmentJson)
    (hl : seg.language = none) (hg : seg.gender = none) (he : seg.emotion = none)
    (ht : truthyStr seg.text = true) :
    (segmentEntries idStr seg).length = 2 := by
  rcases hts : seg.text with _ | t
  · rw [hts] at ht; simp [truthyStr] at ht
  · rw [hts] at ht
    simp only [truthyStr, ne_eq, decide_eq_true_eq] at ht
    simp [segmentEntries, hl, hg, he, hts, ht]

/-- Helper: when the summary field is not truthy, no entry of the formatter
output carries the `"summary"` tag. -/
theorem format_no_summary (supply : Nat → String) (offset : Nat)
    (a : AnalysisJson) (tid : Nat) (hs : truthyStr a.summary_uzbek = false) :
    ∀ e ∈ (format_enhanced_predictions supply offset a tid).result,
      e.from_name ≠ "summary" := by
  intro e he
  have hseg : ∀ e2 ∈ (match a.segments with
      | some segs => if segs ≠ [] then formatSegments supply offset segs else []
      | none => ([] : List AnnotationEntry)), e2.from_name ≠ "summary" := by
    intro e2 he2
    rcases hsegs : a.segments with _ | segs
    · rw [hsegs] at he2; simp at he2
    · rw [hsegs] at he2
      by_cases hne : segs = []
      · simp [hne] at he2
      · simp only [hne, ne_eq, not_false_eq_true, if_true] at he2
        obtain ⟨j, seg, _, hmem⟩ := mem_formatSegments supply e2 offset segs he2
        rcases mem_segmentEntries_from_name (supply j) seg e2 hmem with
          h | h | h | h | h <;> simp [h]
  rcases hsum : a.summary_uzbek with _ | s
  · rw [format_enhanced_predictions] at he
    rw [hsum] at he
    simp only [List.append_nil] at he
    exact hseg e he
  · rw [hsum] at hs
    simp only [truthyStr, ne_eq, decide_eq_true_eq, Bool.decide_eq_false] at hs
    rw [format_enhanced_predictions] at he
    rw [hsum] at he
    have hse : s = "" := by
      by_contra hne
      simp [truthyStr, hne] at hs
    simp only [hse, ne_eq, not_true_eq_false, if_false, List.append_nil] at he
    exact hseg e he

/-- C3: per segment, the speaker-label entry is always emitted first (with
the `"Speaker 1"` default when `speaker_id` is absent); language, gender,
emotion and transcription entries are each emitted exactly when the
corresponding field is present (and non-empty, per Python truthiness); a
segment with only `speaker_id` and a non-empty `text` set yields exactly two
entries; the task-level summary entry carries no region identifier, appears
at the very end of the output when the summary is present, and is absent
(no `"summary"`-tagged entry at all) when it is not. -/
theorem C3_entry_emission_rules (idStr : String) (seg : SegmentJson)
    (supply : Nat → String) (offset tid : Nat) (a : AnalysisJson) :
    (segmentEntries idStr seg).take 1 =
      [{ id := some idStr
         value := EntryValue.labelsValue (seg.start_time.getD 0) (seg.end_time.getD 0)
                    [seg.speaker_id.getD "Speaker 1"] 0
         from_name := "speaker_labels", to_name := "audio"
         type := "labels", origin := "prediction" }] ∧
    countFrom (segmentEntries idStr seg) "language" =
      (if truthyStr seg.language then 1 else 0) ∧
    countFrom (segmentEntries idStr seg) "gender" =
      (if truthyStr seg.gender then 1 else 0) ∧
    countFrom (segmentEntries idStr seg) "emotion" =
      (if truthyStr seg.emotion then 1 else 0) ∧
    countFrom (segmentEntries idStr seg) "transcription" =
      (if truthyStr seg.text then 1 else 0) ∧
    (seg.language = none → seg.gender = none → seg.emotion = none →
      truthyStr seg.text = true → (segmentEntries idStr seg).length = 2) ∧
    (∀ s, a.summary_uzbek = some s → s ≠ "" →
      ∃ pre, (format_enhanced_predictions supply offset a tid).result =
        pre ++ [summaryEntry s]) ∧
    (summaryEntry (a.summary_uzbek.getD "")).id = none ∧
    (truthyStr a.summary_uzbek = false →
      ∀ e ∈ (format_enhanced_predictions supply offset a tid).result,
        e.from_name ≠ "summary") := by
  refine ⟨segmentEntries_head idStr seg,
          countFrom_language idStr seg,
          countFrom_gender idStr seg,
          countFrom_emotion idStr seg,
          countFrom_transcription idStr seg,
          segmentEntries_length_two idStr seg,
          ?_, rfl, format_no_summary supply offset a tid⟩
  intro s hs hne
  refine ⟨(match a.segments with
    | some segs => if segs ≠ [] then formatSegments supply offset segs else []
    | none => ([] : List AnnotationEntry)), ?_⟩
  rw [format_enhanced_predictions, hs]
  simp [hne]

/-- A segment with only `speaker_id` and `text` set. -/
def segOnlySpeakerText : SegmentJson :=
  { speaker_id := some "Speaker 1", text := some "salom" }

/-- C3 witness: the two-field segment yields exactly two entries and no
language entry. -/
theorem C3_entry_emission_rules_witness :
    (segmentEntries "rid" segOnlySpeakerText).length = 2 ∧
    countFrom (segmentEntries "rid" segOnlySpeakerText) "language" = 0 := by
  constructor
  · exact (C3_entry_emission_rules "rid" segOnlySpeakerText sampleSupply 0 1
      sampleParsed).2.2.2.2.2.1 rfl rfl rfl rfl
  · have h := (C3_entry_emission_rules "rid" segOnlySpeakerText sampleSupply 0 1
      sampleParsed).2.1
    simpa [truthyStr, segOnlySpeakerText] using h

/-- C5: a `blob:` reference makes `download_audio` raise the unsupported
reference error (HTTP 400) with an empty effect trace — no network request,
no filesystem probe, no temp-file creation happens before (or after) the
raise. -/
theorem C5_blob_no_effects (env : ResolverEnv) (url : String)
    (h : strStartsWith url "blob:" = true) :
    download_audio env url = (DownloadResult.err 400, []) := by
  simp [download_audio, h]

/-- A resolver environment for concrete witnesses: a filesystem containing
only `/media/a.mp3`, no glob matches, no pattern matches, no credentials. -/
def sampleEnv : ResolverEnv :=
  { mediaRoot := "/root/.local/share/label-studio/media"
    labelStudioUrl := "http://localhost:8080"
    apiKey := ""
    pathExists := fun p => p == "/media/a.mp3"
    glob := fun _ => []
    unquote := fun s => s
    uploadMatch := fun _ => none
    localFilesMatch := fun _ => none
    filenameMatch := fun _ => none
    tempPath := "/tmp/dl.mp3"
    refreshResult := none
    downloadOk := true }

/-- C5 witness: a concrete blob reference. -/
theorem C5_blob_no_effects_witness :
    download_audio sampleEnv "blob:audio-1234" = (DownloadResult.err 400, []) :=
  C5_blob_no_effects sampleEnv "blob:audio-1234" (by decide)

/-- C6: when (after stripping a scheme://host prefix) the reference is an
absolute path that exists on disk, `download_audio` returns exactly that
path as pre-existing, and the whole effect trace is that single existence
probe: the upload-pattern, local-files, filename-glob and fallback-root
probes are never tried and no network download or temp-file creation
happens. -/
theorem C6_absolute_path_shortcircuits (env : ResolverEnv) (url0 : String)
    (hb : strStartsWith url0 "blob:" = false)
    (habs : strStartsWith (stripSchemeHost url0) "/" = true)
    (hex : env.pathExists (stripSchemeHost url0) = true) :
    download_audio env url0 =
      (DownloadResult.ok (stripSchemeHost url0) Ownership.preExisting,
       [Effect.probeExists (stripSchemeHost url0)]) := by
  simp [download_audio, hb, orElseStep, stepAbsolute, habs, hex]

/-- C6 witness: an http URL whose stripped path exists on the host disk. -/
theorem C6_absolute_path_shortcircuits_witness :
    download_audio sampleEnv "http://localhost:8080/media/a.mp3" =
      (DownloadResult.ok (stripSchemeHost "http://localhost:8080/media/a.mp3")
        Ownership.preExisting,
       [Effect.probeExists (stripSchemeHost "http://localhost:8080/media/a.mp3")]) :=
  C6_absolute_path_shortcircuits sampleEnv "http://localhost:8080/media/a.mp3"
    (by decide) (by decide) (by decide)

/-- An extractor environment whose ffmpeg run exits non-zero and whose
partial output file exists at cleanup time. -/
def extractEnvExitOne : ExtractEnv :=
  { tempPath := "/tmp/seg.mp3", run := fun _ => RunOutcome.exit 1
    pathExists := fun _ => true }

/-- An extractor environment whose ffmpeg run exceeds the 30 s timeout, the
partial output file existing on disk all along. -/
def extractEnvTimeout : ExtractEnv :=
  { tempPath := "/tmp/seg.mp3", run := fun _ => RunOutcome.timedOut
    pathExists := fun _ => true }

/-- C7 evidence: `extract(path, 2.0, 7.5)` invokes ffmpeg with duration
`5.5` and a 30 s timeout; a non-zero exit deletes the partial output file
and raises the extraction-failed error; but a subprocess timeout raises the
timeout error with no deletion — the `TimeoutExpired` handler re-raises a
fresh exception that the sibling cleanup handler of the same `try` never
sees, so the partially-written file is leaked on the timeout path, contrary
to the claim. -/
theorem C7_extract_failure_paths :
    extract_audio_segment extractEnvExitOne "/audio/call.mp3" 2 (15 / 2) =
      (ExtractResult.errFfmpegFailed,
       [Effect.createTemp "/tmp/seg.mp3",
        Effect.runProc
          { input := "/audio/call.mp3", start := 2, duration := 11 / 2
            output := "/tmp/seg.mp3", timeoutSecs := 30 },
        Effect.probeExists "/tmp/seg.mp3", Effect.unlink "/tmp/seg.mp3"]) ∧
    extract_audio_segment extractEnvTimeout "/audio/call.mp3" 2 (15 / 2) =
      (ExtractResult.errTimeout,
       [Effect.createTemp "/tmp/seg.mp3",
        Effect.runProc
          { input := "/audio/call.mp3", start := 2, duration := 11 / 2
            output := "/tmp/seg.mp3", timeoutSecs := 30 }]) := by
  have hdur : (15 : Rat) / 2 - 2 = 11 / 2 := by norm_num
  constructor <;>
    simp [extract_audio_segment, extractEnvExitOne, extractEnvTimeout, hdur]

/-- Helper: a probe that produced a result short-circuits the chain. -/
theorem orElseStep_fst_some (a : Option DownloadResult × List Effect)
    (b : Unit → Option DownloadResult × List Effect) (r : DownloadResult)
    (h : a.1 = some r) : (orElseStep a b).1 = some r := by
  obtain ⟨o, t⟩ := a
  cases o <;> simp_all [orElseStep]

/-- Helper: a probe that fell through hands over to the rest of the chain. -/
theorem orElseStep_fst_none (a : Option DownloadResult × List Effect)
    (b : Unit → Option DownloadResult × List Effect)
    (h : a.1 = none) : (orElseStep a b).1 = (b ()).1 := by
  obtain ⟨o, t⟩ := a
  cases o <;> simp_all [orElseStep]

/-- Helper: the absolute-path probe only ever returns pre-existing paths. -/
theorem stepAbsolute_preExisting (env : ResolverEnv) (url : String) (r : DownloadResult)
    (h : (stepAbsolute env url).1 = some r) :
    ∃ p, r = DownloadResult.ok p Ownership.preExisting := by
  simp only [stepAbsolute] at h
  repeat' split at h
  all_goals simp_all
  all_goals first
    | exact ⟨_, rfl⟩
    | exact ⟨_, h.symm⟩
    | exact ⟨_, h⟩

/-- Helper: the upload-pattern probe only ever returns pre-existing paths. -/
theorem stepUpload_preExisting (env : ResolverEnv) (url : String) (r : DownloadResult)
    (h : (stepUpload env url).1 = some r) :
    ∃ p, r = DownloadResult.ok p Ownership.preExisting := by
  simp only [stepUpload] at h
  repeat' split at h
  all_goals simp_all
  all_goals first
    | exact ⟨_, rfl⟩
    | exact ⟨_, h.symm⟩
    | exact ⟨_, h⟩

/-- Helper: the local-files probe only ever returns pre-existing paths. -/
theorem stepLocalFiles_preExisting (env : ResolverEnv) (url : String) (r : DownloadResult)
    (h : (stepLocalFiles env url).1 = some r) :
    ∃ p, r = DownloadResult.ok p Ownership.preExisting := by
  simp only [stepLocalFiles] at h
  repeat' split at h
  all_goals simp_all
  all_goals first
    | exact ⟨_, rfl⟩
    | exact ⟨_, h.symm⟩
    | exact ⟨_, h⟩

/-- Helper: the per-directory filename search only ever returns
pre-existing paths. -/
theorem searchProjectDirs_preExisting (env : ResolverEnv) (filename : String) :
    ∀ (dirs : List String) (r : DownloadResult),
      (searchProjectDirs env filename dirs).1 = some r →
      ∃ p, r = DownloadResult.ok p Ownership.preExisting := by
  intro dirs
  induction dirs with
  | nil => intro r h; simp [searchProjectDirs] at h
  | cons d rest ih =>
    intro r h
    rw [searchProjectDirs] at h
    simp only [] at h
    rcases hg : env.glob (d ++ "/*" ++ filename ++ "*") with _ | ⟨m, ms⟩ <;> rw [hg] at h
    · by_cases hex : env.pathExists (d ++ "/" ++ filename)
      · simp [hex] at h
        exact ⟨_, h.symm⟩
      · simp only [hex, Bool.false_eq_true, if_false] at h
        exact ih r h
    · simp at h
      exact ⟨_, h.symm⟩

/-- Helper: the filename-glob probe only ever returns pre-existing paths. -/
theorem stepFilename_preExisting (env : ResolverEnv) (url : String) (r : DownloadResult)
    (h : (stepFilename env url).1 = some r) :
    ∃ p, r = DownloadResult.ok p Ownership.preExisting := by
  rcases hm : env.filenameMatch url with _ | g
  · simp [stepFilename, hm] at h
  · simp only [stepFilename, hm] at h
    exact searchProjectDirs_preExisting env _ _ r h

/-- Helper: the bare-filename probe only ever returns pre-existing paths. -/
theorem stepBareName_preExisting (env : ResolverEnv) (url : String) (r : DownloadResult)
    (h : (stepBareName env url).1 = some r) :
    ∃ p, r = DownloadResult.ok p Ownership.preExisting := by
  simp only [stepBareName] at h
  repeat' split at h
  all_goals simp_all
  all_goals first
    | exact ⟨_, rfl⟩
    | exact ⟨_, h.symm⟩
    | exact ⟨_, h⟩

/-- Helper: the candidate-path loop only ever returns pre-existing paths. -/
theorem tryPaths_preExisting (env : ResolverEnv) :
    ∀ (ps : List String) (r : DownloadResult),
      (tryPaths env ps).1 = some r →
      ∃ p, r = DownloadResult.ok p Ownership.preExisting := by
  intro ps
  induction ps with
  | nil => intro r h; simp [tryPaths] at h
  | cons q rest ih =>
    intro r h
    rw [tryPaths] at h
    by_cases hex : env.pathExists q
    · simp [hex] at h
      exact ⟨_, h.symm⟩
    · simp only [hex, Bool.false_eq_true, if_false] at h
      exact ih r h

/-- Helper: the fallback-roots probe only ever returns pre-existing paths. -/
theorem stepRootedTries_preExisting (env : ResolverEnv) (url : String) (r : DownloadResult)
    (h : (stepRootedTries env url).1 = some r) :
    ∃ p, r = DownloadResult.ok p Ownership.preExisting := by
  simp only [stepRootedTries] at h
  split at h
  · exact tryPaths_preExisting env _ r h
  · simp at h

/-- Helper: the file-URI probe only ever returns pre-existing paths. -/
theorem stepFileUri_preExisting (env : ResolverEnv) (url : String) (r : DownloadResult)
    (h : (stepFileUri env url).1 = some r) :
    ∃ p, r = DownloadResult.ok p Ownership.preExisting := by
  simp only [stepFileUri] at h
  repeat' split at h
  all_goals simp_all
  all_goals first
    | exact ⟨_, rfl⟩
    | exact ⟨_, h.symm⟩
    | exact ⟨_, h⟩

/-- Helper: the download step returns either the HTTP 500 error or the
freshly created temp path marked temporary. -/
theorem stepDownload_fst (env : ResolverEnv) (url : String) :
    (stepDownload env url).1 = DownloadResult.err 500 ∨
    (stepDownload env url).1 = DownloadResult.ok env.tempPath Ownership.temporary := by
  by_cases h : env.downloadOk <;> simp [stepDownload, h]

/-- Helper: ownership classification of every successful resolution — a
result is pre-existing, or it is temporary and is exactly the temp path the
download step created. -/
theorem download_audio_ownership (env : ResolverEnv) (url0 p : String)
    (own : Ownership) (tr : List Effect)
    (h : download_audio env url0 = (DownloadResult.ok p own, tr)) :
    own = Ownership.preExisting ∨ (own = Ownership.temporary ∧ p = env.tempPath) := by
  have h1 : (download_audio env url0).1 = DownloadResult.ok p own := by rw [h]
  by_cases hb : strStartsWith url0 "blob:"
  · rw [download_audio] at h1
    simp [hb] at h1
  · rw [download_audio, if_neg (by simp [hb])] at h1
    try simp only [] at h1
    rcases h2 : (stepAbsolute env (stripSchemeHost url0)).1 with _ | r1
    · rw [orElseStep_fst_none _ _ h2] at h1
      try simp only [] at h1
      rcases h3 : (stepUpload env (stripSchemeHost url0)).1 with _ | r2
      · rw [orElseStep_fst_none _ _ h3] at h1
        try simp only [] at h1
        rcases h4 : (stepLocalFiles env (stripSchemeHost url0)).1 with _ | r3
        · rw [orElseStep_fst_none _ _ h4] at h1
          try simp only [] at h1
          rcases h5 : (stepFilename env (stripSchemeHost url0)).1 with _ | r4
          · rw [orElseStep_fst_none _ _ h5] at h1
            try simp only [] at h1
            rcases h6 : (stepBareName env (stripSchemeHost url0)).1 with _ | r5
            · rw [orElseStep_fst_none _ _ h6] at h1
              try simp only [] at h1
              rcases h7 : (stepRootedTries env (stripSchemeHost url0)).1 with _ | r6
              · rw [orElseStep_fst_none _ _ h7] at h1
                try simp only [] at h1
                rcases h8 : (stepFileUri env (stripSchemeHost url0)).1 with _ | r7
                · rw [orElseStep_fst_none _ _ h8] at h1
                  simp only [Option.getD_some] at h1
                  rcases stepDownload_fst env (stripSchemeHost url0) with hd | hd
                  · rw [hd] at h1
                    cases h1
                  · rw [hd] at h1
                    injection h1 with hp hown
                    exact Or.inr ⟨hown.symm, hp.symm⟩
                · rw [orElseStep_fst_some _ _ r7 h8, Option.getD_some] at h1
                  obtain ⟨q, hq⟩ := stepFileUri_preExisting env _ r7 h8
                  rw [h1] at hq
                  injection hq with hp hown
                  exact Or.inl hown
              · rw [orElseStep_fst_some _ _ r6 h7, Option.getD_some] at h1
                obtain ⟨q, hq⟩ := stepRootedTries_preExisting env _ r6 h7
                rw [h1] at hq
                injection hq with hp hown
                exact Or.inl hown
            · rw [orElseStep_fst_some _ _ r5 h6, Option.getD_some] at h1
              obtain ⟨q, hq⟩ := stepBareName_preExisting env _ r5 h6
              rw [h1] at hq
              injection hq with hp hown
              exact Or.inl hown
          · rw [orElseStep_fst_some _ _ r4 h5, Option.getD_some] at h1
            obtain ⟨q, hq⟩ := stepFilename_preExisting env _ r4 h5
            rw [h1] at hq
            injection hq with hp hown
            exact Or.inl hown
        · rw [orElseStep_fst_some _ _ r3 h4, Option.getD_some] at h1
          obtain ⟨q, hq⟩ := stepLocalFiles_preExisting env _ r3 h4
          rw [h1] at hq
          injection hq with hp hown
          exact Or.inl hown
      · rw [orElseStep_fst_some _ _ r2 h3, Option.getD_some] at h1
        obtain ⟨q, hq⟩ := stepUpload_preExisting env _ r2 h3
        rw [h1] at hq
        injection hq with hp hown
        exact Or.inl hown
    · rw [orElseStep_fst_some _ _ r1 h2, Option.getD_some] at h1
      obtain ⟨q, hq⟩ := stepAbsolute_preExisting env _ r1 h2
      rw [h1] at hq
      injection hq with hp hown
      exact Or.inl hown

/-- A filesystem on which only `/tmp/preexisting.mp3` exists: a
host-managed file that happens to live under `/tmp`. -/
def env8 : ResolverEnv :=
  { sampleEnv with pathExists := fun p => p == "/tmp/preexisting.mp3" }

/-- C8 counterexample: the reference `/tmp/preexisting.mp3` resolves by the
absolute-path probe to a pre-existing file (no file was created for it),
yet the endpoint cleanup condition (`exists and startswith /tmp`) deletes
it — a pre-existing host-managed file is deleted, refuting the claim that
such files are never deleted. -/
theorem C8_counterexample :
    (download_audio env8 "/tmp/preexisting.mp3").1 =
      DownloadResult.ok "/tmp/preexisting.mp3" Ownership.preExisting ∧
    resolvedAudioCleanupDeletes env8.pathExists "/tmp/preexisting.mp3" = true := by
  constructor <;> decide

/-- C8 as amended: the cleanup in `predict` and `transcribe_segment` is
keyed on the path, not on ownership — a resolved audio path is deleted
exactly when it exists and begins with `/tmp`. Since the download branch
returns the freshly created temp path (under `/tmp` with the default temp
directory), every `temporary` resolution is deleted; a `pre-existing`
resolution survives only when its path lies outside `/tmp`. -/
theorem C8_cleanup_keyed_on_tmp (env : ResolverEnv) (url0 p : String)
    (own : Ownership) (tr : List Effect)
    (h : download_audio env url0 = (DownloadResult.ok p own, tr))
    (htmp : strStartsWith env.tempPath "/tmp" = true)
    (hex : env.pathExists p = true) :
    resolvedAudioCleanupDeletes env.pathExists p = strStartsWith p "/tmp" ∧
    (own = Ownership.temporary → resolvedAudioCleanupDeletes env.pathExists p = true) := by
  constructor
  · simp [resolvedAudioCleanupDeletes, hex]
  · intro ht
    rcases download_audio_ownership env url0 p own tr h with hpre | ⟨_, hp⟩
    · rw [ht] at hpre
      cases hpre
    · subst hp
      simp [resolvedAudioCleanupDeletes, hex, htmp]

/-- A filesystem on which only the freshly downloaded `/tmp/dl.mp3`
exists. -/
def envDownload : ResolverEnv :=
  { sampleEnv with pathExists := fun p => p == "/tmp/dl.mp3" }

/-- C8 amended witness: a reference resolved by network download lands on
the temp path and is deleted by the cleanup. -/
theorem C8_cleanup_keyed_on_tmp_witness :
    resolvedAudioCleanupDeletes envDownload.pathExists "/tmp/dl.mp3" =
      strStartsWith "/tmp/dl.mp3" "/tmp" ∧
    (Ownership.temporary = Ownership.temporary →
      resolvedAudioCleanupDeletes envDownload.pathExists "/tmp/dl.mp3" = true) :=
  C8_cleanup_keyed_on_tmp envDownload "some/remote/file" "/tmp/dl.mp3"
    Ownership.temporary
    [Effect.probeExists "/mnt/mata/labelStudio/some/remote/file",
     Effect.createTemp "/tmp/dl.mp3",
     Effect.httpGet "http://localhost:8080/data/some/remote/file" 60]
    (by decide) (by decide) (by decide)

/-- C9 counterexample: not every external invocation carries an explicit
bounded timeout — the table of invocation sites contains entries with no
timeout (the generative-model upload and generation calls). -/
theorem C9_counterexample :
    externalCalls.all (fun c => c.timeoutSecs.isSome) = false := by
  decide

/-- C9 as amended: exactly the non-model external invocations (credential
refresh, file download, audio extraction subprocess) carry an explicit
bounded timeout (10 s, 60 s, 30 s); the five generative-model invocations
(file upload and content generation in analysis, the safety retry, and file
upload and generation in segment transcription) are issued with no explicit
timeout. -/
theorem C9_model_calls_lack_timeout :
    ∀ c ∈ externalCalls, c.timeoutSecs.isSome = !c.isModelCall := by
  decide

/-- C9 amended witness: the ffmpeg subprocess site carries its timeout. -/
theorem C9_model_calls_lack_timeout_witness :
    (ExternalCall.mk "subprocess.run ffmpeg" false (some 30)).timeoutSecs.isSome =
      !(ExternalCall.mk "subprocess.run ffmpeg" false (some 30)).isModelCall :=
  C9_model_calls_lack_timeout (ExternalCall.mk "subprocess.run ffmpeg" false (some 30))
    (by decide)

/-- C10: a task whose data has no truthy audio reference contributes no
entry at all to the results — the results list has exactly one entry per
task with a truthy audio reference, so with any audio-less task in the
batch the results list is strictly shorter than the tasks list and
positional correspondence is lost. -/
theorem C10_audioless_tasks_skipped (proc : LSTask → TaskOutcome) (tasks : List LSTask) :
    (predictResults proc tasks).length =
      tasks.countP (fun t => truthyStr t.audio) ∧
    ((∃ t ∈ tasks, truthyStr t.audio = false) →
      (predictResults proc tasks).length < tasks.length) := by
  have hlen : ∀ ts : List LSTask, (predictResults proc ts).length =
      ts.countP (fun t => truthyStr t.audio) := by
    intro ts
    induction ts with
    | nil => simp [predictResults]
    | cons t ts ih =>
      rw [predictResults]
      by_cases ht : truthyStr t.audio
      · simp [ht, List.countP_cons, ih]
      · simp [ht, List.countP_cons, ih]
  refine ⟨hlen tasks, ?_⟩
  rintro ⟨t, htmem, htf⟩
  rw [hlen tasks]
  refine lt_of_le_of_ne (List.countP_le_length _) ?_
  intro heq
  have := List.countP_eq_length.mp heq t htmem
  rw [htf] at this
  cases this

/-- C10 witness: a batch with one audio-less and one audio-bearing task
yields a single result entry — shorter than the batch. -/
theorem C10_audioless_tasks_skipped_witness :
    (predictResults (fun _ => TaskOutcome.failure)
      [{ audio := none }, { audio := some "/a.mp3" }]).length =
      List.countP (fun t => truthyStr t.audio)
        [({ audio := none } : LSTask), { audio := some "/a.mp3" }] ∧
    (predictResults (fun _ => TaskOutcome.failure)
      [{ audio := none }, { audio := some "/a.mp3" }]).length < 2 :=
  ⟨(C10_audioless_tasks_skipped (fun _ => TaskOutcome.failure)
      [{ audio := none }, { audio := some "/a.mp3" }]).1,
   (C10_audioless_tasks_skipped (fun _ => TaskOutcome.failure)
      [{ audio := none }, { audio := some "/a.mp3" }]).2
     ⟨{ audio := none }, List.mem_cons_self _ _, rfl⟩⟩
